import Mathlib

/-!
Verification of the tabularization and export layer of `python-ouraring`.

Shallow embedding of the three source files:

* `oura_contraindications/client_pandas.py` — `to_pandas` and
  `OuraClientDataFrame.combined_df_edited`;
* `oura_contraindications/v2/client_pandas.py` — `to_pandas` (identical body,
  different default `date_key`); the embedding takes `date_key` as an argument
  and therefore covers both versions;
* `oura_contraindications/export/writers.py` — `save_as_xlsx` and its inner
  helper `localize`.

Records are association lists from field names to scalar values; a pandas
`DataFrame` produced by `to_pandas` (after `set_index`) is modelled by
`Table`, holding the promoted key column separately from the data columns.
`pd.to_datetime(...).dt.date` is modelled by an explicit `parse` argument
(`Value → Option Int`): `some d` is a successful parse to the date `d`,
`none` is the parse failure that pandas raises on; a missing cell (`NaN`)
becomes `NaT`/`none` without raising, as in pandas.

Frame-effect claims about in-place mutation are settled over a small heap
model (`List` of objects addressed by index), where `.copy()` allocates a new
cell and in-place mutation writes through a reference.
-/

namespace OuraPandas

/-- A scalar JSON value in an API record. -/
inductive Value where
  | str : String → Value
  | int : Int → Value
  | bool : Bool → Value
  | null : Value
deriving DecidableEq, Repr

/-- One flat record of a summary: an ordered mapping from field name to value
(a Python `dict`). -/
abbrev Record := List (String × Value)

/-- Value of field `c` in record `r`; `none` models the `NaN` that
`pd.DataFrame` fills in for a column the record lacks. -/
def lookupField (r : Record) (c : String) : Option Value :=
  (r.find? (fun p => p.1 = c)).map Prod.snd

/-- Columns of `pd.DataFrame(summary)`: the union of the records' field names
in first-seen order. -/
def dfColumns (records : List Record) : List String :=
  records.foldl (fun acc r => acc ++ (r.map Prod.fst).filter (fun c => ¬ acc.contains c)) []

/-- The `metrics` argument of `to_pandas`: `isinstance(metrics, str)` or a
list of names. -/
inductive MetricsArg where
  | one : String → MetricsArg
  | many : List String → MetricsArg
deriving DecidableEq, Repr

/-- The dataframe returned by a successful `to_pandas` run, after
`df.set_index(date_key)`: the parsed key column is the index (`none` entries
are `NaT` from missing cells), the remaining columns hold the data. -/
structure Table where
  keyName : String
  key : List (Option Int)
  cols : List String
  rows : List (List (Option Value))
deriving DecidableEq, Repr

/-- Result of a `to_pandas` call: the early-returned empty dataframe, a
key-indexed table, or a propagated exception (`KeyError` from `df[metrics]` /
`df[date_key]`, or a `pd.to_datetime` parse error). -/
inductive PdResult where
  | emptyDf : PdResult
  | table : Table → PdResult
  | error : PdResult
deriving DecidableEq, Repr

/-- The `metrics` normalization block of `to_pandas`: wrap a lone string,
drop names absent from `df.columns`, force-insert `date_key` at the front when
missing.  (The `.copy()` of the caller's list is a value-level no-op here; its
aliasing content is settled separately over the heap model below.) -/
def projListOf (metrics : MetricsArg) (cols : List String) (dateKey : String) : List String :=
  let ms := match metrics with
    | .one s => [s]
    | .many l => l
  let ms := ms.filter (fun m => cols.contains m)
  if ms.contains dateKey then ms else dateKey :: ms

/-- The function `to_pandas(summary, metrics, date_key)` from `client_pandas.py` (both the
v1 and the v2 file carry this exact body; only the default `date_key`
differs).  `parse` stands for `pd.to_datetime(·).dt.date` on one cell. -/
def to_pandas (summary : List Record) (metrics : Option MetricsArg) (dateKey : String)
    (parse : Value → Option Int) : PdResult :=
  let cols := dfColumns summary
  if summary.length * cols.length = 0 then
    .emptyDf
  else
    let cols2 := match metrics with
      | none => cols
      | some m => projListOf m cols dateKey
    if cols2.all (fun c => cols.contains c) then
      if cols2.contains dateKey then
        let keyCells := summary.map (fun r => lookupField r dateKey)
        if keyCells.all (fun c => match c with
            | none => true
            | some v => (parse v).isSome) then
          .table
            { keyName := dateKey
              key := keyCells.map (fun c => c.bind parse)
              cols := cols2.erase dateKey
              rows := summary.map (fun r => (cols2.erase dateKey).map (lookupField r)) }
        else
          .error
      else
        .error
    else
      .error

/-! ## Combined view: `OuraClientDataFrame.combined_df_edited` -/

/-- Renaming applied by the inner helper `prefix_cols` of `combined_df_edited`
to one column name: every column except `summary_date` gets `p ++ ":"` in
front. -/
def renameCol (p c : String) : String :=
  if c = "summary_date" then c else p ++ ":" ++ c

/-- The helper `prefix_cols(df, prefix)`: rename the data columns (the index is not in
`df.columns`, so the key is untouched). -/
def prefix_cols (df : Table) (p : String) : Table :=
  { df with cols := df.cols.map (renameCol p) }

/-- Row pairs of `a.merge(b, on=onKey)` with the default `how="inner"`: each
left row, in order, paired with every right row whose key matches (pandas
preserves left-key order for an inner merge). -/
def innerJoin (a b : Table) : List (Option Int × List (Option Value)) :=
  (a.key.zip a.rows).flatMap (fun pa =>
    ((b.key.zip b.rows).filter (fun pb => pb.1 = pa.1)).map
      (fun pb => (pa.1, pa.2 ++ pb.2)))

/-- The call `a.merge(b, on=onKey)` where both frames are indexed by `onKey` (joining
on the shared index level keeps it as the index of the result); `none` when a
frame is not keyed by `onKey`, which pandas rejects with a `KeyError`. -/
def mergeOn (onKey : String) (a b : Table) : Option Table :=
  if a.keyName = onKey ∧ b.keyName = onKey then
    some
      { keyName := onKey
        key := (innerJoin a b).map Prod.fst
        cols := a.cols ++ b.cols
        rows := (innerJoin a b).map Prod.snd }
  else
    none

/-- The method `combined_df_edited`, taken at the point where the three summary tables
have been fetched (the HTTP fetch and the column converters are outside this
layer): prefix each table's columns, then chain two inner merges on
`summary_date`. -/
def combined_df_edited (sleep_df readiness_df activity_df : Table) : Option Table :=
  (mergeOn "summary_date" (prefix_cols sleep_df "SLEEP")
      (prefix_cols readiness_df "READY")).bind
    (fun x => mergeOn "summary_date" x (prefix_cols activity_df "ACTIVITY"))

/-! ## Export: `save_as_xlsx` from `export/writers.py` -/

/-- One column of a dataframe handed to `save_as_xlsx`.  `tz` is `some zone`
exactly for the `datetimetz`-dtyped columns that
`df.select_dtypes(include=["datetimetz"])` selects; `cells` are the wall-clock
values, which `dt.tz_localize(None)` keeps unchanged. -/
structure XCol where
  name : String
  tz : Option String
  cells : List Int
deriving DecidableEq, Repr

/-- A dataframe as seen by `save_as_xlsx`. -/
structure XDF where
  cols : List XCol
deriving DecidableEq, Repr

/-- The inner helper `localize(df)`: strip the timezone from every
`datetimetz` column (`df[tz_col] = df[tz_col].dt.tz_localize(None)`); other
columns are untouched. -/
def localize (df : XDF) : XDF :=
  { cols := df.cols.map (fun c => if c.tz.isSome then { c with tz := none } else c) }

/-- What one `save_as_xlsx` call hands to `pd.ExcelWriter` / `df.to_excel`:
the two fixed cell-format strings, the dataframe actually written, and the
`index` flag. -/
structure XlsxWrite where
  dateFormat : String
  datetimeFormat : String
  written : XDF
  withIndex : Bool
deriving DecidableEq, Repr

/-- The function `save_as_xlsx(df, file, index)`: copy the dataframe, localize the copy,
write it with the writer's fixed `date_format` and `datetime_format`. -/
def save_as_xlsx (df : XDF) (index : Bool) : XlsxWrite :=
  let df2 := localize df
  { dateFormat := "m/d/yyy"
    datetimeFormat := "m/d/yyy h:mmAM/PM"
    written := df2
    withIndex := index }

/-! ## Heap model for the in-place frame effects

Python objects live in a heap addressed by `Nat`; `.copy()` allocates a fresh
cell, in-place mutation writes through a reference.  Used to settle that
`save_as_xlsx` never mutates the caller's dataframe and `to_pandas` never
mutates the caller's `metrics` list. -/

/-- Heap of dataframe objects. -/
abbrev XHeap := List XDF

/-- The object steps of `save_as_xlsx` on the heap: `df = df.copy()`
allocates a copy; `localize(df)` mutates that copy in place (the per-column
assignments write into the object); the written object is the copy.  Returns
the final heap and the reference written to the file. -/
def save_as_xlsx_run (h : XHeap) (r : Nat) : XHeap × Nat :=
  let h1 := h ++ [h.getD r ⟨[]⟩]
  let r1 := h.length
  let h2 := h1.set r1 (localize (h1.getD r1 ⟨[]⟩))
  (h2, r1)

/-- Heap of Python list-of-string objects. -/
abbrev SHeap := List (List String)

/-- The `metrics`-list object steps of `to_pandas` when `metrics` is a list:
`metrics = metrics.copy()` allocates a copy; the list comprehension
`[m for m in metrics if m in df.columns]` allocates a new list;
`metrics.insert(0, date_key)` mutates that last object in place.  Returns the
final heap and the reference used for the projection `df[metrics]`. -/
def to_pandas_metrics_run (h : SHeap) (r : Nat) (cols : List String) (dateKey : String) :
    SHeap × Nat :=
  let h1 := h ++ [h.getD r []]
  let r1 := h.length
  let h2 := h1 ++ [(h1.getD r1 []).filter (fun m => cols.contains m)]
  let r2 := h1.length
  let h3 := if (h2.getD r2 []).contains dateKey then h2
    else h2.set r2 (dateKey :: h2.getD r2 [])
  (h3, r2)

/-! ## Concrete data used by witnesses and counterexamples -/

/-- A concrete stand-in for `pd.to_datetime(·).dt.date`: the four dates the
examples use parse to their epoch-day numbers, everything else raises. -/
def parseDemo : Value → Option Int
  | .str "2020-01-01" => some 18262
  | .str "2020-01-02" => some 18263
  | .str "2020-01-03" => some 18264
  | .str "2020-01-04" => some 18265
  | _ => none

/-- A record with a score for 2020-01-01. -/
def recA : Record := [("summary_date", .str "2020-01-01"), ("score", .int 80)]

/-- A record with a score for 2020-01-02. -/
def recB : Record := [("summary_date", .str "2020-01-02"), ("score", .int 90)]

/-- A second record for the date 2020-01-01 (a key collision with `recA`). -/
def recDup : Record := [("summary_date", .str "2020-01-01"), ("score", .int 70)]

/-- A record whose `summary_date` value does not parse as a date. -/
def recBad : Record := [("summary_date", .str "zzz")]

/-- A record that carries a data column but no `summary_date` field. -/
def recNoKey : Record := [("a", .int 1)]

/-- The table `to_pandas [recA, recB]` produces. -/
def tabAB : Table :=
  { keyName := "summary_date"
    key := [some 18262, some 18263]
    cols := ["score"]
    rows := [[some (.int 80)], [some (.int 90)]] }

/-- The table `to_pandas [recA, recDup]` produces: two rows under one date. -/
def tabDup : Table :=
  { keyName := "summary_date"
    key := [some 18262, some 18262]
    cols := ["score"]
    rows := [[some (.int 80)], [some (.int 70)]] }

/-- The table produced when only the bogus column is requested: all data
columns are dropped, the promoted key remains. -/
def tabOnlyKey : Table :=
  { keyName := "summary_date"
    key := [some 18262]
    cols := []
    rows := [[]] }

/-- A one-column summary table keyed by the given epoch days (used to
instantiate the combined view on the spec's example date sets). -/
def demoTable (ds : List Int) : Table :=
  { keyName := "summary_date"
    key := ds.map some
    cols := ["score"]
    rows := ds.map (fun _ => [some (.int 1)]) }

/-- The combined view of the three demo tables keyed by {1,2,3}, {2,3,4} and
{2,3}: exactly the shared dates 2 and 3 survive the two inner merges. -/
def tabCombined : Table :=
  { keyName := "summary_date"
    key := [some 2, some 3]
    cols := ["SLEEP:score", "READY:score", "ACTIVITY:score"]
    rows := [[some (.int 1), some (.int 1), some (.int 1)],
             [some (.int 1), some (.int 1), some (.int 1)]] }

/-- A dataframe with one timezone-aware column and one plain column. -/
def dfTz : XDF :=
  { cols := [{ name := "bedtime_start", tz := some "UTC", cells := [5, 6] },
             { name := "score", tz := none, cells := [80, 90] }] }

/-! ## Helper lemmas -/

/-- Anything reachable through the accumulator or through a record's field
names ends up in the column-union fold of `dfColumns`. -/
lemma mem_dfColumns_aux (records : List Record) (acc : List String) (c : String)
    (h : c ∈ acc ∨ ∃ r ∈ records, c ∈ r.map Prod.fst) :
    c ∈ records.foldl
      (fun acc r => acc ++ (r.map Prod.fst).filter (fun c => ¬ acc.contains c)) acc := by
  induction records generalizing acc with
  | nil =>
    simpa using h.resolve_right (by simp)
  | cons r rs ih =>
    simp only [List.foldl_cons]
    apply ih
    rcases h with hacc | ⟨r', hr', hc⟩
    · exact Or.inl (List.mem_append_left _ hacc)
    · rcases List.mem_cons.mp hr' with rfl | hr'
      · by_cases hacc : c ∈ acc
        · exact Or.inl (List.mem_append_left _ hacc)
        · refine Or.inl (List.mem_append_right _ ?_)
          simp only [List.mem_filter]
          exact ⟨hc, by simpa using hacc⟩
      · exact Or.inr ⟨r', hr', hc⟩

/-- A field name occurring in some record is a column of the dataframe. -/
lemma mem_dfColumns {records : List Record} {r : Record} {c : String}
    (hr : r ∈ records) (hc : c ∈ r.map Prod.fst) : c ∈ dfColumns records :=
  mem_dfColumns_aux records [] c (Or.inr ⟨r, hr, hc⟩)

/-- A successful field lookup exhibits the field name as a dataframe column. -/
lemma mem_dfColumns_of_lookupField {records : List Record} {r : Record} {c : String}
    {v : Value} (hr : r ∈ records) (hv : lookupField r c = some v) :
    c ∈ dfColumns records := by
  unfold lookupField at hv
  rcases Option.map_eq_some'.mp hv with ⟨pair, hfind, _⟩
  have hmem : pair ∈ r := List.mem_of_find?_eq_some hfind
  have hfst : pair.1 = c := by simpa using List.find?_some hfind
  exact mem_dfColumns hr (List.mem_map.mpr ⟨pair, hmem, hfst⟩)

/-- The `df.size == 0` guard is off when there is a row and a column. -/
lemma size_ne_zero {records : List Record} (h0 : records ≠ [])
    (h1 : dfColumns records ≠ []) :
    ¬ (records.length * (dfColumns records).length = 0) := by
  simp [Nat.mul_eq_zero, List.length_eq_zero, h0, h1]

/-- Erasing the key from the projection list undoes the force-insertion. -/
lemma projListOf_erase (ms cols : List String) (k : String) :
    (projListOf (.many ms) cols k).erase k
      = (ms.filter (fun m => cols.contains m)).erase k := by
  simp only [projListOf]
  by_cases h : (ms.filter (fun m => cols.contains m)).contains k = true
  · rw [if_pos h]
  · rw [if_neg h, List.erase_cons_head]
    exact (List.erase_of_not_mem (by simpa using h)).symm

/-- When the key column is absent from the data, the filter step cannot keep
it, so it is force-inserted at the front. -/
lemma projListOf_of_not_mem (m : MetricsArg) (cols : List String) (k : String)
    (hk : k ∉ cols) :
    projListOf m cols k
      = k :: (match m with | .one s => [s] | .many l => l).filter
          (fun x => cols.contains x) := by
  unfold projListOf
  have hnc : ¬ ((match m with | .one s => [s] | .many l => l).filter
      (fun x => cols.contains x)).contains k = true := by
    simp only [List.contains_eq_any_beq, List.any_eq_true, beq_iff_eq]
    rintro ⟨x, hx, rfl⟩
    exact hk (by simpa using (List.mem_filter.mp hx).2)
  simp only [hnc, Bool.false_eq_true, if_false]

/-- Reading below the old length is unaffected by appending. -/
lemma getD_append_lt {α : Type} (l1 l2 : List α) (d : α) (i : Nat)
    (hi : i < l1.length) : (l1 ++ l2).getD i d = l1.getD i d := by
  rw [List.getD_eq_getElem?_getD, List.getD_eq_getElem?_getD,
    List.getElem?_append, if_pos hi]

/-- Reading a cell other than the written one is unaffected by the write. -/
lemma getD_set_ne {α : Type} (l : List α) (i j : Nat) (v d : α) (hij : i ≠ j) :
    (l.set i v).getD j d = l.getD j d := by
  rw [List.getD_eq_getElem?_getD, List.getD_eq_getElem?_getD,
    List.getElem?_set_ne hij]

/-- In a zip of equal-length lists every left element shows up in a pair. -/
lemma exists_mem_zip_left {α β : Type} {l1 : List α} {l2 : List β}
    (hlen : l1.length = l2.length) {a : α} (ha : a ∈ l1) :
    ∃ b, (a, b) ∈ l1.zip l2 := by
  rcases List.mem_iff_getElem.mp ha with ⟨i, hi, rfl⟩
  have hi2 : i < l2.length := hlen ▸ hi
  have hiz : i < (l1.zip l2).length := by
    simpa [List.length_zip, hlen] using hi2
  refine ⟨l2[i], ?_⟩
  have h2 : (l1.zip l2)[i] = (l1[i], l2[i]) := List.getElem_zip
  exact h2 ▸ List.getElem_mem hiz

/-- Shape of every table a successful `to_pandas` run returns: the columns
are the (possibly projected) dataframe columns with the key column erased,
the key is the parsed key column, rows follow the input records. -/
lemma toPandas_table_inv {summary : List Record} {metrics : Option MetricsArg}
    {dateKey : String} {parse : Value → Option Int} {t : Table}
    (h : to_pandas summary metrics dateKey parse = .table t) :
    t = { keyName := dateKey
          key := (summary.map (fun r => lookupField r dateKey)).map (fun c => c.bind parse)
          cols := (match metrics with
            | none => dfColumns summary
            | some m => projListOf m (dfColumns summary) dateKey).erase dateKey
          rows := summary.map (fun r =>
            ((match metrics with
              | none => dfColumns summary
              | some m => projListOf m (dfColumns summary) dateKey).erase dateKey).map
                (lookupField r)) } := by
  simp only [to_pandas] at h
  by_cases h0 : summary.length * (dfColumns summary).length = 0
  · rw [if_pos h0] at h
    exact PdResult.noConfusion h
  · rw [if_neg h0] at h
    rcases metrics with _ | m
    · by_cases h1 : (dfColumns summary).all (fun c => (dfColumns summary).contains c) = true
      · rw [if_pos h1] at h
        by_cases h2 : (dfColumns summary).contains dateKey = true
        · rw [if_pos h2] at h
          by_cases h3 : ((summary.map (fun r => lookupField r dateKey)).all (fun c =>
              match c with | none => true | some v => (parse v).isSome)) = true
          · rw [if_pos h3] at h
            injection h with h'
            exact h'.symm
          · rw [if_neg h3] at h
            exact PdResult.noConfusion h
        · rw [if_neg h2] at h
          exact PdResult.noConfusion h
      · rw [if_neg h1] at h
        exact PdResult.noConfusion h
    · by_cases h1 : (projListOf m (dfColumns summary) dateKey).all
          (fun c => (dfColumns summary).contains c) = true
      · rw [if_pos h1] at h
        by_cases h2 : (projListOf m (dfColumns summary) dateKey).contains dateKey = true
        · rw [if_pos h2] at h
          by_cases h3 : ((summary.map (fun r => lookupField r dateKey)).all (fun c =>
              match c with | none => true | some v => (parse v).isSome)) = true
          · rw [if_pos h3] at h
            injection h with h'
            exact h'.symm
          · rw [if_neg h3] at h
            exact PdResult.noConfusion h
        · rw [if_neg h2] at h
          exact PdResult.noConfusion h
      · rw [if_neg h1] at h
        exact PdResult.noConfusion h

/-! ## Claims -/

/-- C6: calling `to_pandas` on an empty sequence of records returns the empty
dataframe immediately, for every `metrics` argument, key name, and parse
behavior — no key-column processing (no date parsing, no key promotion)
happens, and nothing is raised. -/
theorem toPandas_empty_input (metrics : Option MetricsArg) (dateKey : String)
    (parse : Value → Option Int) :
    to_pandas [] metrics dateKey parse = .emptyDf := rfl

/-- C3 counterexample: the claim states the fixed date cell format is
`m/d/yyyy` and the datetime format `m/d/yyyy h:mmAM/PM`; the format strings
`save_as_xlsx` actually passes to the writer differ (three `y`s, not four). -/
theorem save_as_xlsx_format_counterexample :
    (save_as_xlsx dfTz true).dateFormat ≠ "m/d/yyyy" ∧
      (save_as_xlsx dfTz true).datetimeFormat ≠ "m/d/yyyy h:mmAM/PM" := by
  exact ⟨by decide, by decide⟩

/-- C3 (amended): `save_as_xlsx` writes every exported table with the fixed
date cell format `m/d/yyy` and the fixed datetime cell format
`m/d/yyy h:mmAM/PM`. -/
theorem save_as_xlsx_fixed_formats (df : XDF) (index : Bool) :
    (save_as_xlsx df index).dateFormat = "m/d/yyy" ∧
      (save_as_xlsx df index).datetimeFormat = "m/d/yyy h:mmAM/PM" :=
  ⟨rfl, rfl⟩

/-- C2 counterexample: two records carrying the same date give a table with
two rows whose key values collide, so the row count (2) differs from the
number of distinct parsed key values (1) and the key column is not unique. -/
theorem toPandas_distinct_key_counterexample :
    to_pandas [recA, recDup] none "summary_date" parseDemo = .table tabDup ∧
      tabDup.key.length = 2 ∧ tabDup.key.dedup.length = 1 ∧ ¬ tabDup.key.Nodup := by
  exact ⟨rfl, rfl, by decide, by decide⟩

/-- C2 (amended): `to_pandas` produces one row per input record — the row
count equals the number of input records, and the key column holds their
parsed dates in source order, without deduplication (so it equals the number
of distinct parsed key values only when those happen to be distinct). -/
theorem toPandas_row_count (summary : List Record) (metrics : Option MetricsArg)
    (dateKey : String) (parse : Value → Option Int) (t : Table)
    (h : to_pandas summary metrics dateKey parse = .table t) :
    t.key.length = summary.length ∧ t.rows.length = summary.length := by
  rw [toPandas_table_inv h]
  constructor <;> simp

/-- Witness for C2's amended theorem at a concrete two-record input. -/
theorem toPandas_row_count_witness :
    to_pandas [recA, recB] none "summary_date" parseDemo = .table tabAB ∧
      tabAB.key.length = 2 :=
  ⟨rfl, (toPandas_row_count [recA, recB] none "summary_date" parseDemo tabAB rfl).1⟩

/-- C5: before writing, `save_as_xlsx` strips the timezone from every
date/time column that carries one — the written table has no timezone-aware
column left — while the column names and wall-clock values are written
unchanged; the write is total on timezone-aware input. -/
theorem save_as_xlsx_strips_timezones (df : XDF) (index : Bool) :
    ((save_as_xlsx df index).written.cols.all (fun c => c.tz.isNone)) = true ∧
      (save_as_xlsx df index).written.cols.map (fun c => (c.name, c.cells))
        = df.cols.map (fun c => (c.name, c.cells)) := by
  constructor
  · simp only [save_as_xlsx, localize, List.all_eq_true, List.mem_map]
    rintro x ⟨c, hc, rfl⟩
    cases htz : c.tz <;> simp [htz]
  · simp only [save_as_xlsx, localize, List.map_map]
    apply List.map_congr_left
    intro c hc
    cases htz : c.tz <;> simp [Function.comp, htz]

/-- C4: with a `metrics` list (an ordered set of names), a successful
`to_pandas` run promotes `date_key` to the lookup key and projects the data
columns to exactly the requested names that are present in the records, in
request order (the force-inserted key is the promoted index, so erasing it
from the projection list leaves the data columns); invalid requested names
are silently dropped, not an error. -/
theorem toPandas_metrics_projection (summary : List Record) (ms : List String)
    (dateKey : String) (parse : Value → Option Int) (t : Table) (_hms : ms.Nodup)
    (h : to_pandas summary (some (.many ms)) dateKey parse = .table t) :
    t.keyName = dateKey ∧
      t.cols = (ms.filter (fun m => (dfColumns summary).contains m)).erase dateKey := by
  rw [toPandas_table_inv h]
  exact ⟨rfl, projListOf_erase ms (dfColumns summary) dateKey⟩

/-- Witness for C4 at the spec's example: requesting only a bogus column name
yields the table that holds nothing but the promoted key column, with no
error raised. -/
theorem toPandas_metrics_projection_witness :
    List.Nodup ["bogus_col"] ∧ tabOnlyKey.cols = [] :=
  ⟨by decide, by
    have h := toPandas_metrics_projection [recA] ["bogus_col"] "summary_date"
      parseDemo tabOnlyKey (by decide) rfl
    exact h.2.trans (by decide)⟩

/-- C7: whenever some record's key-column value fails to parse as a date, the
whole `to_pandas` call propagates the fatal parse error — no table and no
empty dataframe is returned, for any `metrics` argument. -/
theorem toPandas_unparseable_key_raises (summary : List Record)
    (metrics : Option MetricsArg) (dateKey : String) (parse : Value → Option Int)
    (r : Record) (v : Value) (hr : r ∈ summary)
    (hv : lookupField r dateKey = some v) (hp : parse v = none) :
    to_pandas summary metrics dateKey parse = .error := by
  have hkc : dateKey ∈ dfColumns summary := mem_dfColumns_of_lookupField hr hv
  have hne := size_ne_zero (List.ne_nil_of_mem hr) (List.ne_nil_of_mem hkc)
  have hbad : ¬ ((summary.map (fun x => lookupField x dateKey)).all (fun c =>
      match c with | none => true | some v => (parse v).isSome)) = true := by
    intro hall
    have hmem : lookupField r dateKey ∈ summary.map (fun x => lookupField x dateKey) :=
      List.mem_map.mpr ⟨r, hr, rfl⟩
    have h2 := List.all_eq_true.mp hall _ hmem
    rw [hv] at h2
    simp [hp] at h2
  simp only [to_pandas]
  rw [if_neg hne]
  rcases metrics with _ | m
  · by_cases h1 : (dfColumns summary).all (fun c => (dfColumns summary).contains c) = true
    · rw [if_pos h1]
      by_cases h2 : (dfColumns summary).contains dateKey = true
      · rw [if_pos h2, if_neg hbad]
      · rw [if_neg h2]
    · rw [if_neg h1]
  · by_cases h1 : (projListOf m (dfColumns summary) dateKey).all
        (fun c => (dfColumns summary).contains c) = true
    · rw [if_pos h1]
      by_cases h2 : (projListOf m (dfColumns summary) dateKey).contains dateKey = true
      · rw [if_pos h2, if_neg hbad]
      · rw [if_neg h2]
    · rw [if_neg h1]

/-- Witness for C7: a record whose `summary_date` does not parse makes the
call raise. -/
theorem toPandas_unparseable_key_raises_witness :
    to_pandas [recBad] none "summary_date" parseDemo = .error :=
  toPandas_unparseable_key_raises [recBad] none "summary_date" parseDemo recBad
    (.str "zzz") (by decide) rfl rfl

/-- C8: when `metrics` is provided and the key column is not among the
columns actually present in the (non-empty, non-column-free) records, the
projection raises a `KeyError` — the force-inserted key name is not checked
against the data, unlike the other requested names, which are silently
filtered. -/
theorem toPandas_missing_key_raises (summary : List Record) (m : MetricsArg)
    (dateKey : String) (parse : Value → Option Int)
    (h0 : summary ≠ []) (h1 : dfColumns summary ≠ [])
    (h2 : dateKey ∉ dfColumns summary) :
    to_pandas summary (some m) dateKey parse = .error := by
  have hne := size_ne_zero h0 h1
  have hall : ¬ ((projListOf m (dfColumns summary) dateKey).all
      (fun c => (dfColumns summary).contains c) = true) := by
    rw [projListOf_of_not_mem m _ _ h2]
    simp only [List.all_cons, Bool.and_eq_true]
    rintro ⟨hk, -⟩
    exact h2 (by simpa using hk)
  simp only [to_pandas]
  rw [if_neg hne, if_neg hall]

/-- Witness for C8: records that have a column but no `summary_date`, with a
`metrics` list naming only the present column, still raise. -/
theorem toPandas_missing_key_raises_witness :
    to_pandas [recNoKey] (some (.many ["a"])) "summary_date" parseDemo = .error :=
  toPandas_missing_key_raises [recNoKey] (.many ["a"]) "summary_date" parseDemo
    (by decide) (by decide) (by decide)

/-- C9: `save_as_xlsx` never mutates the caller's dataframe — it copies the
object before the in-place timezone stripping, so after the call the caller's
heap cell still holds the same columns, values, and timezone information. -/
theorem save_as_xlsx_no_mutation (h : XHeap) (r : Nat) (hr : r < h.length) :
    ((save_as_xlsx_run h r).1).getD r ⟨[]⟩ = h.getD r ⟨[]⟩ := by
  simp only [save_as_xlsx_run]
  rw [List.getD_eq_getElem?_getD, List.getD_eq_getElem?_getD,
    List.getElem?_set_ne (Nat.ne_of_gt hr), List.getElem?_append, if_pos hr]

/-- Witness for C9 on a heap holding one timezone-aware dataframe. -/
theorem save_as_xlsx_no_mutation_witness :
    ((save_as_xlsx_run [dfTz] 0).1).getD 0 ⟨[]⟩ = [dfTz].getD 0 ⟨[]⟩ :=
  save_as_xlsx_no_mutation [dfTz] 0 (by decide)

/-- C10: `to_pandas` never mutates the caller's `metrics` list — the list is
copied before invalid names are filtered and before the key is inserted, so
after the call the caller's heap cell holds the list it held before. -/
theorem toPandas_metrics_no_mutation (h : SHeap) (r : Nat)
    (cols : List String) (dateKey : String) (hr : r < h.length) :
    ((to_pandas_metrics_run h r cols dateKey).1).getD r [] = h.getD r [] := by
  have hr1 : r < (h ++ [h.getD r []]).length := by
    simp only [List.length_append, List.length_cons, List.length_nil]
    omega
  simp only [to_pandas_metrics_run]
  split
  · exact (getD_append_lt _ _ _ _ hr1).trans (getD_append_lt _ _ _ _ hr)
  · exact ((getD_set_ne _ _ _ _ _ (Nat.ne_of_gt hr1)).trans
      (getD_append_lt _ _ _ _ hr1)).trans (getD_append_lt _ _ _ _ hr)

/-- Witness for C10: the caller's list still holds the bogus name and the
original order after the run. -/
theorem toPandas_metrics_no_mutation_witness :
    ((to_pandas_metrics_run [["bogus_col", "score"]] 0 ["summary_date", "score"]
        "summary_date").1).getD 0 [] = [["bogus_col", "score"]].getD 0 [] :=
  toPandas_metrics_no_mutation [["bogus_col", "score"]] 0 ["summary_date", "score"]
    "summary_date" (by decide)

/-- Key membership in an inner merge: a key value appears among the merged
row keys exactly when it appears in both inputs (the length hypotheses say
each table has as many index entries as rows). -/
lemma mem_innerJoin_fst_iff (a b : Table)
    (ha : a.key.length = a.rows.length) (hb : b.key.length = b.rows.length)
    (k : Option Int) :
    k ∈ (innerJoin a b).map Prod.fst ↔ (k ∈ a.key ∧ k ∈ b.key) := by
  constructor
  · intro hk
    rcases List.mem_map.mp hk with ⟨pr, hpr, hfst⟩
    rcases List.mem_flatMap.mp hpr with ⟨pa, hpa, hin⟩
    rcases List.mem_map.mp hin with ⟨pb, hpb, hpr2⟩
    subst hpr2
    rcases List.mem_filter.mp hpb with ⟨hpbz, hpbeq⟩
    have hbeq : pb.1 = pa.1 := by simpa using hpbeq
    have h1 : pa.1 ∈ a.key := (List.of_mem_zip hpa).1
    have h2 : pb.1 ∈ b.key := (List.of_mem_zip hpbz).1
    subst hfst
    exact ⟨h1, hbeq ▸ h2⟩
  · rintro ⟨hka, hkb⟩
    rcases exists_mem_zip_left ha hka with ⟨ra, hra⟩
    rcases exists_mem_zip_left hb hkb with ⟨rb, hrb⟩
    refine List.mem_map.mpr ⟨(k, ra ++ rb), ?_, rfl⟩
    refine List.mem_flatMap.mpr ⟨(k, ra), hra, ?_⟩
    refine List.mem_map.mpr ⟨(k, rb), ?_, rfl⟩
    exact List.mem_filter.mpr ⟨hrb, by simp⟩

/-- Unfolding of a merge between two frames keyed by the merge column. -/
lemma mergeOn_eq (onKey : String) (a b : Table) (hka : a.keyName = onKey)
    (hkb : b.keyName = onKey) :
    mergeOn onKey a b = some
      { keyName := onKey
        key := (innerJoin a b).map Prod.fst
        cols := a.cols ++ b.cols
        rows := (innerJoin a b).map Prod.snd } := by
  simp [mergeOn, hka, hkb]

/-- C1: `combined_df_edited` renames every non-key column of the sleep,
readiness, and activity tables with the `SLEEP:` / `READY:` / `ACTIVITY:`
prefix, keeps the shared key `summary_date` unprefixed as the result's key,
and inner-joins the three on that key: a date appears in the result exactly
when it appears in all three inputs. -/
theorem combined_view_inner_join (s r a : Table)
    (hks : s.keyName = "summary_date") (hkr : r.keyName = "summary_date")
    (hka : a.keyName = "summary_date")
    (hls : s.key.length = s.rows.length) (hlr : r.key.length = r.rows.length)
    (hla : a.key.length = a.rows.length) :
    (combined_df_edited s r a).isSome = true ∧
      ∀ t, combined_df_edited s r a = some t →
        (t.keyName = "summary_date" ∧
          t.cols = s.cols.map (renameCol "SLEEP") ++ r.cols.map (renameCol "READY")
            ++ a.cols.map (renameCol "ACTIVITY") ∧
          ∀ k, k ∈ t.key ↔ (k ∈ s.key ∧ k ∈ r.key ∧ k ∈ a.key)) := by
  have h1 := mergeOn_eq "summary_date" (prefix_cols s "SLEEP") (prefix_cols r "READY")
    hks hkr
  have hcomb : combined_df_edited s r a
      = mergeOn "summary_date"
          { keyName := "summary_date"
            key := (innerJoin (prefix_cols s "SLEEP") (prefix_cols r "READY")).map Prod.fst
            cols := (prefix_cols s "SLEEP").cols ++ (prefix_cols r "READY").cols
            rows := (innerJoin (prefix_cols s "SLEEP") (prefix_cols r "READY")).map
              Prod.snd }
          (prefix_cols a "ACTIVITY") := by
    unfold combined_df_edited
    rw [h1]
    rfl
  have h2 := mergeOn_eq "summary_date"
    { keyName := "summary_date"
      key := (innerJoin (prefix_cols s "SLEEP") (prefix_cols r "READY")).map Prod.fst
      cols := (prefix_cols s "SLEEP").cols ++ (prefix_cols r "READY").cols
      rows := (innerJoin (prefix_cols s "SLEEP") (prefix_cols r "READY")).map Prod.snd }
    (prefix_cols a "ACTIVITY") rfl hka
  constructor
  · rw [hcomb, h2]
    rfl
  · intro t ht
    rw [hcomb, h2] at ht
    injection ht with ht'
    subst ht'
    refine ⟨rfl, rfl, ?_⟩
    intro k
    have e1 := mem_innerJoin_fst_iff (prefix_cols s "SLEEP") (prefix_cols r "READY")
      hls hlr k
    have e2 := mem_innerJoin_fst_iff
      { keyName := "summary_date"
        key := (innerJoin (prefix_cols s "SLEEP") (prefix_cols r "READY")).map Prod.fst
        cols := (prefix_cols s "SLEEP").cols ++ (prefix_cols r "READY").cols
        rows := (innerJoin (prefix_cols s "SLEEP") (prefix_cols r "READY")).map Prod.snd }
      (prefix_cols a "ACTIVITY") (by simp) hla k
    exact (e2.trans (and_congr e1 Iff.rfl)).trans and_assoc

/-- Witness for C1 on the spec's example date sets {1,2,3}, {2,3,4}, {2,3}:
the merge succeeds and date 2 is in the result because it is in all three
inputs. -/
theorem combined_view_inner_join_witness :
    (combined_df_edited (demoTable [1, 2, 3]) (demoTable [2, 3, 4])
        (demoTable [2, 3])).isSome = true ∧
      (some 2 ∈ tabCombined.key ↔ (some 2 ∈ (demoTable [1, 2, 3]).key ∧
        some 2 ∈ (demoTable [2, 3, 4]).key ∧ some 2 ∈ (demoTable [2, 3]).key)) :=
  ⟨(combined_view_inner_join (demoTable [1, 2, 3]) (demoTable [2, 3, 4])
      (demoTable [2, 3]) rfl rfl rfl rfl rfl rfl).1,
    ((combined_view_inner_join (demoTable [1, 2, 3]) (demoTable [2, 3, 4])
      (demoTable [2, 3]) rfl rfl rfl rfl rfl rfl).2 tabCombined rfl).2.2 (some 2)⟩

end OuraPandas
